import Mathlib

/-!
Verification of the 3GPP telecom query classifier and prompt composer
(source: `telecom-llm-assistant.py`, class `TelecomPromptGenerator`).

The Python program is a pure, rule-based text classifier plus a template
renderer.  We embed it shallowly:

* Python strings become `String`; Python's substring test `k in s` becomes
  `strIn k s` (character-level infix test), `str.lower()` becomes `pyLower`
  (ASCII lowercasing, which agrees with Python on every string this program
  manipulates), `str.split('\n')` becomes `splitChar '\n'`, `sep.join`
  becomes `joinSep`.
* The class-level constant dicts `QUERY_KEYWORDS` and `SPECIALIZED_CONTEXTS`
  become total functions; dict key order (Python dicts iterate in insertion
  order) is recorded by the list `queryKeywordTypes`.  `QueryType.GENERAL`
  has no entry in either dict, modelled by `[]` / `none`.
* Python float scores become exact rationals `ℚ`.  Every score this program
  can compute is a clamped multiple of 0.3 (`0, 0.3, 0.6, 0.9, 1.0`), and on
  that value lattice every comparison the code performs (`> 0`, `> 0.3`,
  equality of scores, `min` with `1.0`) gives the same answer in IEEE double
  arithmetic as in exact arithmetic, so the rational embedding is faithful
  to the observed float behaviour.
* Python's `sorted(..., key=score, reverse=True)` is a stable descending
  sort; we model it with `List.insertionSort` under the relation
  `fun x y => y.2 ≤ x.2`, which inserts each element after all
  previously-sorted elements of greater *or equal* score and is therefore
  exactly a stable descending sort.
* Python `set` values (`secondary_types`) are modelled as duplicate-free
  lists; the iteration order used when rendering the prompt is the
  deterministic descending-score order in which the code discovers them.
-/

namespace Telecom

/-- The `QueryType` enumeration of the source, in declaration order. -/
inductive QueryType
  | PROCEDURE
  | ARCHITECTURE
  | PROTOCOL
  | INTERFACE
  | SECURITY
  | PERFORMANCE
  | QOS
  | RELIABILITY
  | DEPLOYMENT
  | INTERWORKING
  | MIGRATION
  | TROUBLESHOOTING
  | COMPLIANCE
  | FEATURE
  | GENERAL
  deriving DecidableEq, Repr, Fintype

/-- The `.value` string of each `QueryType` member. -/
def QueryType.value : QueryType → String
  | .PROCEDURE => "procedure"
  | .ARCHITECTURE => "architecture"
  | .PROTOCOL => "protocol"
  | .INTERFACE => "interface"
  | .SECURITY => "security"
  | .PERFORMANCE => "performance"
  | .QOS => "qos"
  | .RELIABILITY => "reliability"
  | .DEPLOYMENT => "deployment"
  | .INTERWORKING => "interworking"
  | .MIGRATION => "migration"
  | .TROUBLESHOOTING => "troubleshooting"
  | .COMPLIANCE => "compliance"
  | .FEATURE => "feature"
  | .GENERAL => "general"

/-- Position of a member in the declaration order of `QueryType`. -/
def declIdx : QueryType → Nat
  | .PROCEDURE => 0
  | .ARCHITECTURE => 1
  | .PROTOCOL => 2
  | .INTERFACE => 3
  | .SECURITY => 4
  | .PERFORMANCE => 5
  | .QOS => 6
  | .RELIABILITY => 7
  | .DEPLOYMENT => 8
  | .INTERWORKING => 9
  | .MIGRATION => 10
  | .TROUBLESHOOTING => 11
  | .COMPLIANCE => 12
  | .FEATURE => 13
  | .GENERAL => 14

/-- `Python str(member)` for a `QueryType` member, e.g. `"QueryType.PROCEDURE"`. -/
def queryTypeStr (t : QueryType) : String :=
  "QueryType." ++ (match t with
  | .PROCEDURE => "PROCEDURE"
  | .ARCHITECTURE => "ARCHITECTURE"
  | .PROTOCOL => "PROTOCOL"
  | .INTERFACE => "INTERFACE"
  | .SECURITY => "SECURITY"
  | .PERFORMANCE => "PERFORMANCE"
  | .QOS => "QOS"
  | .RELIABILITY => "RELIABILITY"
  | .DEPLOYMENT => "DEPLOYMENT"
  | .INTERWORKING => "INTERWORKING"
  | .MIGRATION => "MIGRATION"
  | .TROUBLESHOOTING => "TROUBLESHOOTING"
  | .COMPLIANCE => "COMPLIANCE"
  | .FEATURE => "FEATURE"
  | .GENERAL => "GENERAL")

/-- The three priority tiers of the keyword table (the keys of each inner
dict of `QUERY_KEYWORDS`), in their declaration order. -/
inductive Priority
  | high_priority
  | medium_priority
  | low_priority
  deriving DecidableEq, Repr, Fintype

/-- The tier key order of each inner dict of `QUERY_KEYWORDS`. -/
def priorities : List Priority :=
  [Priority.high_priority, Priority.medium_priority, Priority.low_priority]

/-- `QUERY_KEYWORDS`: the class-level keyword table.  `GENERAL` has no entry
in the source dict; that absence is modelled by the empty list (and by
`GENERAL` being absent from `queryKeywordTypes`). -/
def QUERY_KEYWORDS : QueryType → Priority → List String
  | .PROCEDURE, .high_priority => ["procedure", "process", "flow", "step", "sequence", "operation"]
  | .PROCEDURE, .medium_priority => ["how to", "when", "trigger", "initiate", "handle"]
  | .PROCEDURE, .low_priority => ["do", "perform", "execute"]
  | .ARCHITECTURE, .high_priority => ["architecture", "structure", "framework", "design", "topology"]
  | .ARCHITECTURE, .medium_priority => ["component", "element", "node", "entity", "function"]
  | .ARCHITECTURE, .low_priority => ["system", "network", "setup"]
  | .PROTOCOL, .high_priority => ["protocol", "signaling", "message", "packet", "format"]
  | .PROTOCOL, .medium_priority => ["header", "payload", "encoding", "decoding", "stack"]
  | .PROTOCOL, .low_priority => ["communicate", "exchange", "transfer"]
  | .INTERFACE, .high_priority => ["interface", "reference point", "connection", "link"]
  | .INTERFACE, .medium_priority => ["between", "connects to", "interconnection"]
  | .INTERFACE, .low_priority => ["connect", "communicate"]
  | .SECURITY, .high_priority => ["security", "authentication", "encryption", "integrity", "privacy"]
  | .SECURITY, .medium_priority => ["protect", "secure", "cipher", "key", "credential"]
  | .SECURITY, .low_priority => ["safe", "guard", "threat"]
  | .PERFORMANCE, .high_priority => ["performance", "throughput", "latency", "bandwidth", "capacity"]
  | .PERFORMANCE, .medium_priority => ["speed", "efficiency", "optimization", "metric"]
  | .PERFORMANCE, .low_priority => ["fast", "slow", "measure"]
  | .QOS, .high_priority => ["qos", "quality of service", "priority", "class", "bearer"]
  | .QOS, .medium_priority => ["traffic", "flow", "guarantee", "requirement"]
  | .QOS, .low_priority => ["quality", "service"]
  | .RELIABILITY, .high_priority => ["reliability", "availability", "redundancy", "resilience"]
  | .RELIABILITY, .medium_priority => ["failover", "backup", "recovery", "robust"]
  | .RELIABILITY, .low_priority => ["stable", "reliable", "maintain"]
  | .DEPLOYMENT, .high_priority => ["deployment", "installation", "configuration", "setup"]
  | .DEPLOYMENT, .medium_priority => ["implement", "roll out", "provision", "integrate"]
  | .DEPLOYMENT, .low_priority => ["deploy", "install", "configure"]
  | .INTERWORKING, .high_priority => ["interworking", "interoperability", "compatibility", "integration"]
  | .INTERWORKING, .medium_priority => ["interact", "work together", "coordinate"]
  | .INTERWORKING, .low_priority => ["between", "with"]
  | .MIGRATION, .high_priority => ["migration", "upgrade", "transition", "evolution"]
  | .MIGRATION, .medium_priority => ["move to", "change", "transform"]
  | .MIGRATION, .low_priority => ["new", "old", "legacy"]
  | .TROUBLESHOOTING, .high_priority => ["troubleshoot", "debug", "diagnose", "problem", "issue"]
  | .TROUBLESHOOTING, .medium_priority => ["error", "fault", "failure", "fix"]
  | .TROUBLESHOOTING, .low_priority => ["wrong", "fail", "break"]
  | .COMPLIANCE, .high_priority => ["compliance", "standard", "regulation", "requirement"]
  | .COMPLIANCE, .medium_priority => ["conform", "adhere", "follow", "meet"]
  | .COMPLIANCE, .low_priority => ["rule", "guideline", "specification"]
  | .FEATURE, .high_priority => ["feature", "capability", "functionality", "service"]
  | .FEATURE, .medium_priority => ["support", "provide", "enable", "offer"]
  | .FEATURE, .low_priority => ["can", "able", "function"]
  | .GENERAL, _ => []

/-- The key insertion order of the `QUERY_KEYWORDS` dict (every member except
`GENERAL`, in declaration order). -/
def queryKeywordTypes : List QueryType :=
  [QueryType.PROCEDURE, QueryType.ARCHITECTURE, QueryType.PROTOCOL, QueryType.INTERFACE,
   QueryType.SECURITY, QueryType.PERFORMANCE, QueryType.QOS, QueryType.RELIABILITY,
   QueryType.DEPLOYMENT, QueryType.INTERWORKING, QueryType.MIGRATION,
   QueryType.TROUBLESHOOTING, QueryType.COMPLIANCE, QueryType.FEATURE]

/-- `SPECIALIZED_CONTEXTS`: the per-type instructional templates, transcribed
byte-for-byte from the source (each template starts with a newline and ends
with a newline followed by eight spaces).  `GENERAL` has no entry. -/
def SPECIALIZED_CONTEXTS : QueryType → Option String
  | .PROCEDURE => some "\n        For procedure-related queries:\n        - Provide a clear step-by-step breakdown\n        - Include sequence diagrams if relevant\n        - List all involved network elements\n        - Detail message flows and parameters\n        - Specify preconditions and postconditions\n        - Highlight potential error scenarios\n        - Reference relevant 3GPP specifications (TS documents)\n        "
  | .ARCHITECTURE => some "\n        For architecture-related queries:\n        - Describe overall architecture structure\n        - Detail component roles and responsibilities\n        - Explain interfaces and reference points\n        - Discuss deployment considerations\n        - Include scalability aspects\n        - Mention virtualization options\n        - Reference relevant 3GPP specifications\n        "
  | .PROTOCOL => some "\n        For protocol-related queries:\n        - Explain protocol stack placement\n        - Detail message formats and fields\n        - Describe state machines\n        - List supported procedures\n        - Include protocol parameters\n        - Discuss protocol extensions\n        - Reference relevant 3GPP specifications\n        "
  | .INTERFACE => some "\n        For interface-related queries:\n        - Define connected network elements\n        - List supported protocols\n        - Detail interface requirements\n        - Explain message flows\n        - Describe interface configuration\n        - Include performance aspects\n        - Reference relevant 3GPP specifications\n        "
  | .SECURITY => some "\n        For security-related queries:\n        - Explain security mechanisms\n        - Detail key management\n        - Describe authentication flows\n        - List security features\n        - Include threat mitigations\n        - Discuss privacy aspects\n        - Reference relevant 3GPP specifications\n        "
  | .PERFORMANCE => some "\n        For performance-related queries:\n        - List key performance indicators\n        - Provide measurement methods\n        - Include benchmark data\n        - Detail optimization options\n        - Discuss scaling factors\n        - Explain monitoring approaches\n        - Reference relevant 3GPP specifications\n        "
  | .QOS => some "\n        For QoS-related queries:\n        - Define QoS parameters\n        - Explain QoS flows\n        - Detail QoS handling\n        - List QoS classes\n        - Include mapping rules\n        - Discuss enforcement methods\n        - Reference relevant 3GPP specifications\n        "
  | .RELIABILITY => some "\n        For reliability-related queries:\n        - Explain redundancy mechanisms\n        - Detail failover procedures\n        - Describe recovery methods\n        - List availability features\n        - Include monitoring aspects\n        - Discuss SLA considerations\n        - Reference relevant 3GPP specifications\n        "
  | .DEPLOYMENT => some "\n        For deployment-related queries:\n        - Provide deployment options\n        - List prerequisites\n        - Detail configuration steps\n        - Include best practices\n        - Discuss scaling aspects\n        - Explain maintenance procedures\n        - Reference relevant 3GPP specifications\n        "
  | .INTERWORKING => some "\n        For interworking-related queries:\n        - Explain interworking mechanisms\n        - Detail protocol conversions\n        - List supported features\n        - Include limitations\n        - Discuss compatibility aspects\n        - Describe roaming scenarios\n        - Reference relevant 3GPP specifications\n        "
  | .MIGRATION => some "\n        For migration-related queries:\n        - Provide migration paths\n        - Detail upgrade steps\n        - List compatibility issues\n        - Include rollback procedures\n        - Discuss impact analysis\n        - Explain testing approaches\n        - Reference relevant 3GPP specifications\n        "
  | .TROUBLESHOOTING => some "\n        For troubleshooting-related queries:\n        - List common issues\n        - Provide diagnostic steps\n        - Detail resolution procedures\n        - Include logging aspects\n        - Discuss prevention methods\n        - Explain monitoring tools\n        - Reference relevant 3GPP specifications\n        "
  | .COMPLIANCE => some "\n        For compliance-related queries:\n        - List applicable standards\n        - Detail requirements\n        - Explain conformance testing\n        - Include certification aspects\n        - Discuss validation methods\n        - Provide compliance checklist\n        - Reference relevant 3GPP specifications\n        "
  | .FEATURE => some "\n        For feature-related queries:\n        - Explain feature capabilities\n        - Detail configuration options\n        - List dependencies\n        - Include limitations\n        - Discuss use cases\n        - Provide implementation guidance\n        - Reference relevant 3GPP specifications\n        "
  | .GENERAL => none

/-! ### String primitives (Python `in`, `lower`, `split`, `join`) -/

/-- `charsPrefix n h`: is `n` a prefix of `h` (character lists)? -/
def charsPrefix : List Char → List Char → Bool
  | [], _ => true
  | _ :: _, [] => false
  | a :: as, b :: bs => a == b && charsPrefix as bs

/-- `charsInfix n h`: does `n` occur as a contiguous run inside `h`? -/
def charsInfix : List Char → List Char → Bool
  | n, [] => n.isEmpty
  | n, c :: t => charsPrefix n (c :: t) || charsInfix n t

/-- Python's substring test `needle in hay`. -/
def strIn (needle hay : String) : Bool :=
  charsInfix needle.data hay.data

/-- Python's `str.lower()` (ASCII; every keyword and every query this
development evaluates is ASCII). -/
def pyLower (s : String) : String :=
  String.mk (s.data.map Char.toLower)

/-- Helper for `splitChar`. -/
def splitCharAux (sep : Char) : List Char → List Char → List String
  | [], acc => [String.mk acc.reverse]
  | c :: cs, acc =>
      if c == sep then String.mk acc.reverse :: splitCharAux sep cs []
      else splitCharAux sep cs (c :: acc)

/-- Python's `s.split(sep)` for a one-character separator. -/
def splitChar (sep : Char) (s : String) : List String :=
  splitCharAux sep s.data []

/-- Python's `sep.join(parts)`. -/
def joinSep (sep : String) : List String → String
  | [] => ""
  | [s] => s
  | s :: rest => s ++ sep ++ joinSep sep rest

/-! ### The classifier (`_calculate_keyword_matches`,
`_calculate_confidence_score`, `_classify_query`) -/

/-- Matched keywords of one type/tier: the tier's keywords that occur in the
lowercased query, in table order (the order the inner `for keyword` loop
appends them). -/
def tierMatches (query_lower : String) (t : QueryType) (p : Priority) : List String :=
  (QUERY_KEYWORDS t p).filter (fun keyword => strIn keyword query_lower)

/-- The inner `defaultdict` for one query type: tier entries exist exactly
for tiers with at least one match, in tier order (tiers are first touched in
`high, medium, low` order). -/
def typeMatches (query_lower : String) (t : QueryType) : List (Priority × List String) :=
  (priorities.map (fun p => (p, tierMatches query_lower t p))).filter (fun e => !e.2.isEmpty)

/-- `_calculate_keyword_matches`: the outer `defaultdict`, as an association
list in key insertion order.  A type has an entry exactly when some keyword
of that type matched (the `defaultdict` only creates entries on append). -/
def calculate_keyword_matches (query : String) : List (QueryType × List (Priority × List String)) :=
  let query_lower := pyLower query
  (queryKeywordTypes.map (fun t => (t, typeMatches query_lower t))).filter (fun e => !e.2.isEmpty)

/-- The `weights` dict of `_calculate_confidence_score`
(`high=1.0, medium=0.6, low=0.3`). -/
def weights : Priority → ℚ
  | .high_priority => 1
  | .medium_priority => 6/10
  | .low_priority => 3/10

/-- `_calculate_confidence_score`: weighted keyword count, clamped by
`min(score, 1.0)`.  (The source calls the parameter `matches`, a reserved
word in Lean.) -/
def calculate_confidence_score (matched : List (Priority × List String)) : ℚ :=
  min (matched.foldl (fun score e => score + (e.2.length : ℚ) * weights e.1) 0) 1

/-- The per-type score the classifier computes for a given query
(zero when no keyword of the type matches). -/
def score_of (query : String) (t : QueryType) : ℚ :=
  calculate_confidence_score (typeMatches (pyLower query) t)

/-- The `type_scores` dict: candidate types with a strictly positive
confidence, as an association list in key insertion order. -/
def type_scores (query : String) : List (QueryType × ℚ) :=
  ((calculate_keyword_matches query).map (fun e => (e.1, calculate_confidence_score e.2))).filter
    (fun e => decide (0 < e.2))

/-- `sorted(type_scores.items(), key=lambda x: x[1], reverse=True)`:
Python's sort is stable, so equal scores keep insertion order; inserting each
element after all already-placed elements of greater-or-equal score
reproduces exactly that stable descending order. -/
def sorted_types (query : String) : List (QueryType × ℚ) :=
  List.insertionSort (fun x y => y.2 ≤ x.2) (type_scores query)

/-- The `QueryClassification` dataclass.  `secondary_types` is a Python
`set`; it is modelled as the duplicate-free list of qualifying types in
descending-score order (the deterministic order in which the code finds
them), and `keywords_matched` is keyed by `str(query_type)` exactly as in
the source. -/
structure QueryClassification where
  primary_type : QueryType
  secondary_types : List QueryType
  confidence_score : ℚ
  keywords_matched : List (String × List (Priority × List String))
  deriving DecidableEq, Repr

/-- `_classify_query`.  The source returns the `GENERAL` fallback when
`type_scores` is empty; since the sort is a permutation, matching on the
sorted list is the same test. -/
def classify_query (query : String) : QueryClassification :=
  match sorted_types query with
  | [] => ⟨QueryType.GENERAL, [], 0, []⟩
  | top :: rest =>
      ⟨top.1,
       (rest.filter (fun e => decide ((3 : ℚ)/10 < e.2))).map Prod.fst,
       top.2,
       ((calculate_keyword_matches query).filter (fun e => !e.2.isEmpty)).map
         (fun e => (queryTypeStr e.1, e.2))⟩

/-! ### The prompt composer (`generate_prompt`) -/

/-- The `secondary_contexts` list built by `generate_prompt`: for each
secondary type with a template, `context_lines[1:4]` of its template. -/
def secondary_contexts_list (classification : QueryClassification) : List String :=
  classification.secondary_types.foldl
    (fun acc secondary_type =>
      match SPECIALIZED_CONTEXTS secondary_type with
      | some ctx => acc ++ (((splitChar '\n' ctx).drop 1).take 3)
      | none => acc)
    []

/-- Two-digit zero padding for the fractional part of `format2f`. -/
def pad2 (n : ℤ) : String :=
  if n < 10 then "0" ++ toString n else toString n

/-- Python's `f"{x:.2f}"` for the nonnegative rationals this program
produces: round to the nearest hundredth (`100 * x` is an integer for every
reachable confidence score, so rounding ties never arise and rounding is
computed as the floor of `100 * x + 1/2`, which for the nonnegative values
in play is `num / den` in integer division), then print `n / 100`, a dot,
and the zero-padded `n % 100`. -/
def format2f (x : ℚ) : String :=
  let y : ℚ := 100 * x + 1/2
  let n : ℤ := y.num / (y.den : ℤ)
  toString (n / 100) ++ "." ++ pad2 (n % 100)

/-- `generate_prompt`: classify, then render the combined context f-string
(transcribed byte-for-byte, including the 8-space indentation of every
line). -/
def generate_prompt (user_query : String) : String :=
  let classification := classify_query user_query
  let primary_context := (SPECIALIZED_CONTEXTS classification.primary_type).getD
      "Provide a clear, technical response with relevant 3GPP specification references."
  let secondary_contexts := secondary_contexts_list classification
  "\n        Primary Focus - " ++ classification.primary_type.value ++ ":\n        "
    ++ primary_context
    ++ "\n        \n        "
    ++ ((if secondary_contexts.isEmpty then "" else "Additional Considerations:")
        ++ "\n        " ++ joinSep "\n" secondary_contexts)
    ++ "\n        \n        "
    ++ ("Query Classification Confidence: " ++ format2f classification.confidence_score)
    ++ "\n        \n        "
    ++ ("User Query: " ++ user_query)
    ++ "\n        \n        Response Guidelines:\n        1. Start with a clear overview\n        2. Focus on "
    ++ classification.primary_type.value
    ++ "-related aspects\n        3. Include relevant 3GPP specification references\n        4. Provide practical examples where applicable\n        5. Consider interdependencies with "
    ++ (if classification.secondary_types.isEmpty then "other aspects"
        else joinSep ", " (classification.secondary_types.map QueryType.value))
    ++ "\n        6. Conclude with key takeaways and considerations\n        "

/-! ### Spec-side definitions

These restate, in the spec's own words, what the code is claimed to compute;
the claim theorems compare them with the definitions above that were
transcribed from the source. -/

/-- Spec-side: "the 2nd through 4th lines of the template ... If a secondary
type has fewer than 4 lines of template, include whatever is available". -/
def spec_excerpt (tpl : String) : List String :=
  ((splitChar '\n' tpl)[1]?).toList ++ ((splitChar '\n' tpl)[2]?).toList
    ++ ((splitChar '\n' tpl)[3]?).toList

/-- Spec-side: the excerpt contributed by one secondary type (empty when the
type has no defined `ContextTemplate`). -/
def spec_type_excerpt (t : QueryType) : List String :=
  match SPECIALIZED_CONTEXTS t with
  | some tpl => spec_excerpt tpl
  | none => []

/-- Spec-side: "the number of that type's distinct keywords matched in that
tier". -/
def distinct_matched (query_lower : String) (t : QueryType) (p : Priority) : ℕ :=
  (((QUERY_KEYWORDS t p).dedup).filter (fun k => strIn k query_lower)).length

/-- Spec-side: `score(type) = min(1.0, Σ_tier weight(tier) ×
count_of_matched_keywords_in_tier)` with weights
`high=1.0, medium=0.6, low=0.3`. -/
def spec_score (query : String) (t : QueryType) : ℚ :=
  min 1 ((1 : ℚ) * distinct_matched (pyLower query) t Priority.high_priority
    + (6/10) * distinct_matched (pyLower query) t Priority.medium_priority
    + (3/10) * distinct_matched (pyLower query) t Priority.low_priority)

/-- `sub` occurs verbatim (contiguously, unescaped) inside `s`. -/
def ContainsStr (s sub : String) : Prop :=
  ∃ a b, s = a ++ sub ++ b

/-! ### Facts about the static tables (established by evaluation) -/

section Lemmas

attribute [local semireducible] Rat.add Rat.mul Rat.inv

lemma queryKeywordTypes_pairwise :
    queryKeywordTypes.Pairwise (fun a b => declIdx a < declIdx b) := by decide

lemma mem_queryKeywordTypes_iff (t : QueryType) :
    t ∈ queryKeywordTypes ↔ t ≠ QueryType.GENERAL := by
  revert t; decide

lemma table_nodup (t : QueryType) (p : Priority) : (QUERY_KEYWORDS t p).Nodup := by
  revert t p; decide

lemma table_lowercase :
    ∀ (t : QueryType) (p : Priority), ∀ k ∈ QUERY_KEYWORDS t p, pyLower k = k := by
  decide

lemma queryTypeStr_inj :
    ∀ a b : QueryType, queryTypeStr a = queryTypeStr b → a = b := by decide

lemma mem_priorities (p : Priority) : p ∈ priorities := by
  cases p <;> decide

lemma template_defined :
    ∀ t ∈ queryKeywordTypes, (SPECIALIZED_CONTEXTS t).isSome = true := by decide

lemma spec_type_excerpt_ne_nil :
    ∀ t ∈ queryKeywordTypes, spec_type_excerpt t ≠ [] := by decide

lemma template_header :
    ∀ t ∈ queryKeywordTypes,
      (splitChar '\n' ((SPECIALIZED_CONTEXTS t).getD ""))[0]? = some ""
      ∧ charsPrefix "        For ".data
          (((splitChar '\n' ((SPECIALIZED_CONTEXTS t).getD ""))[1]?.getD "").data) = true := by
  decide

/-! ### `ContainsStr` utilities -/

lemma containsStr_appR {s sub : String} (t : String) (h : ContainsStr s sub) :
    ContainsStr (s ++ t) sub := by
  obtain ⟨a, b, rfl⟩ := h
  exact ⟨a, b ++ t, by rw [String.append_assoc (a ++ sub) b t]⟩

lemma containsStr_appL (s : String) {t sub : String} (h : ContainsStr t sub) :
    ContainsStr (s ++ t) sub := by
  obtain ⟨a, b, rfl⟩ := h
  exact ⟨s ++ a, b, by simp [String.append_assoc]⟩

lemma containsStr_self_right (s sub : String) : ContainsStr (s ++ sub) sub :=
  ⟨s, "", (String.append_empty _).symm⟩

/-! ### Arithmetic of the confidence score -/

lemma foldl_score_eq (l : List (Priority × List String)) (s : ℚ) :
    l.foldl (fun score e => score + (e.2.length : ℚ) * weights e.1) s
      = s + (l.map (fun e => (e.2.length : ℚ) * weights e.1)).sum := by
  induction l generalizing s with
  | nil => simp
  | cons a l ih => simp [List.foldl_cons, List.map_cons, List.sum_cons, ih, add_assoc]

lemma sum_filter_empty (l : List (Priority × List String)) :
    ((l.filter (fun e => !e.2.isEmpty)).map (fun e => (e.2.length : ℚ) * weights e.1)).sum
      = (l.map (fun e => (e.2.length : ℚ) * weights e.1)).sum := by
  induction l with
  | nil => rfl
  | cons a l ih =>
    by_cases h : a.2.isEmpty
    · have h2 : a.2 = [] := List.isEmpty_iff.mp h
      simp [List.filter_cons, h, ih, h2]
    · simp [List.filter_cons, h, ih]

lemma calc_score_formula (ql : String) (t : QueryType) :
    calculate_confidence_score (typeMatches ql t)
      = min (((tierMatches ql t Priority.high_priority).length : ℚ)
          + (6/10) * ((tierMatches ql t Priority.medium_priority).length : ℚ)
          + (3/10) * ((tierMatches ql t Priority.low_priority).length : ℚ)) 1 := by
  unfold calculate_confidence_score typeMatches
  rw [foldl_score_eq, zero_add, sum_filter_empty]
  congr 1
  simp [priorities, weights]
  ring

lemma score_nonneg (ql : String) (t : QueryType) :
    0 ≤ calculate_confidence_score (typeMatches ql t) := by
  rw [calc_score_formula]
  refine le_min ?_ zero_le_one
  positivity

lemma score_le_one (ql : String) (t : QueryType) :
    calculate_confidence_score (typeMatches ql t) ≤ 1 :=
  min_le_right _ _

lemma score_mem_values (ql : String) (t : QueryType) :
    calculate_confidence_score (typeMatches ql t) ∈ ([0, 3/10, 6/10, 9/10, 1] : List ℚ) := by
  rw [calc_score_formula]
  set hc := (tierMatches ql t Priority.high_priority).length with hhc
  set mc := (tierMatches ql t Priority.medium_priority).length with hmc
  set lc := (tierMatches ql t Priority.low_priority).length with hlc
  have key : ((hc : ℚ)) + (6/10) * (mc : ℚ) + (3/10) * (lc : ℚ)
      = ((10 * hc + 6 * mc + 3 * lc : ℕ) : ℚ) / 10 := by
    push_cast; ring
  rw [key]
  set N := 10 * hc + 6 * mc + 3 * lc with hN
  rcases le_or_lt 10 N with hge | hlt
  · have h1 : (1 : ℚ) ≤ (N : ℚ) / 10 := by
      rw [le_div_iff₀ (by norm_num : (0:ℚ) < 10)]
      exact_mod_cast by linarith [hge]
    rw [min_eq_right h1]
    simp
  · have hle : (N : ℚ) / 10 ≤ 1 := by
      rw [div_le_one (by norm_num : (0:ℚ) < 10)]
      exact_mod_cast by omega
    rw [min_eq_left hle]
    have hc0 : hc = 0 := by omega
    have hcases : N = 0 ∨ N = 3 ∨ N = 6 ∨ N = 9 := by omega
    rcases hcases with h | h | h | h <;> rw [h] <;> simp

lemma score_pos_iff (ql : String) (t : QueryType) :
    0 < calculate_confidence_score (typeMatches ql t) ↔ typeMatches ql t ≠ [] := by
  constructor
  · intro hpos hnil
    rw [hnil] at hpos
    simp [calculate_confidence_score] at hpos
  · intro hne
    rw [calc_score_formula]
    have hex : ∃ p ∈ priorities, tierMatches ql t p ≠ [] := by
      by_contra hall
      push_neg at hall
      apply hne
      unfold typeMatches
      rw [List.filter_eq_nil_iff]
      intro e he
      rw [List.mem_map] at he
      obtain ⟨p, hp, rfl⟩ := he
      simp [hall p hp]
    obtain ⟨p, _, hne'⟩ := hex
    have hlen : 1 ≤ (tierMatches ql t p).length := List.length_pos.mpr hne'
    rw [lt_min_iff]
    refine ⟨?_, zero_lt_one⟩
    have hm0 : (0:ℚ) ≤ ((tierMatches ql t Priority.medium_priority).length : ℚ) := by positivity
    have hh0 : (0:ℚ) ≤ ((tierMatches ql t Priority.high_priority).length : ℚ) := by positivity
    have hl0 : (0:ℚ) ≤ ((tierMatches ql t Priority.low_priority).length : ℚ) := by positivity
    cases p with
    | high_priority =>
      have h1 : (1:ℚ) ≤ ((tierMatches ql t Priority.high_priority).length : ℚ) := by
        exact_mod_cast hlen
      nlinarith
    | medium_priority =>
      have h1 : (1:ℚ) ≤ ((tierMatches ql t Priority.medium_priority).length : ℚ) := by
        exact_mod_cast hlen
      nlinarith
    | low_priority =>
      have h1 : (1:ℚ) ≤ ((tierMatches ql t Priority.low_priority).length : ℚ) := by
        exact_mod_cast hlen
      nlinarith

/-! ### Membership structure of the match and score tables -/

lemma tierMatches_general (ql : String) (p : Priority) :
    tierMatches ql QueryType.GENERAL p = [] := by
  cases p <;> rfl

lemma mem_typeMatches (ql : String) (t : QueryType) (p : Priority) (x : List String) :
    (p, x) ∈ typeMatches ql t ↔ x = tierMatches ql t p ∧ x ≠ [] := by
  unfold typeMatches
  rw [List.mem_filter]
  simp only [List.mem_map]
  constructor
  · rintro ⟨⟨p', _, heq⟩, hne⟩
    injection heq with h1 h2
    subst h1
    exact ⟨h2.symm, by simpa using hne⟩
  · rintro ⟨rfl, hne⟩
    exact ⟨⟨p, mem_priorities p, rfl⟩, by simpa⟩

lemma typeMatches_ne_nil_iff (ql : String) (t : QueryType) :
    typeMatches ql t ≠ [] ↔ ∃ p, tierMatches ql t p ≠ [] := by
  constructor
  · intro hne
    by_contra hall
    push_neg at hall
    apply hne
    unfold typeMatches
    rw [List.filter_eq_nil_iff]
    intro e he
    rw [List.mem_map] at he
    obtain ⟨p, _, rfl⟩ := he
    simp [hall p]
  · rintro ⟨p, hp⟩ hnil
    have hmem : (p, tierMatches ql t p) ∈ typeMatches ql t :=
      (mem_typeMatches ql t p _).mpr ⟨rfl, hp⟩
    rw [hnil] at hmem
    exact absurd hmem (List.not_mem_nil _)

lemma mem_ckm (q : String) (t : QueryType) (m : List (Priority × List String)) :
    (t, m) ∈ calculate_keyword_matches q
      ↔ t ∈ queryKeywordTypes ∧ m = typeMatches (pyLower q) t ∧ m ≠ [] := by
  simp only [calculate_keyword_matches]
  rw [List.mem_filter]
  simp only [List.mem_map]
  constructor
  · rintro ⟨⟨t', ht', heq⟩, hne⟩
    injection heq with h1 h2
    subst h1
    exact ⟨ht', h2.symm, by simpa using hne⟩
  · rintro ⟨ht, rfl, hne⟩
    exact ⟨⟨t, ht, rfl⟩, by simpa⟩

lemma ckm_entry_nonempty (q : String) :
    ∀ e ∈ calculate_keyword_matches q, !e.2.isEmpty := by
  intro e he
  simp only [calculate_keyword_matches] at he
  exact (List.mem_filter.mp he).2

lemma ckm_filter_id (q : String) :
    (calculate_keyword_matches q).filter (fun e => !e.2.isEmpty)
      = calculate_keyword_matches q :=
  List.filter_eq_self.mpr (ckm_entry_nonempty q)

lemma ckm_pairwise (q : String) :
    (calculate_keyword_matches q).Pairwise (fun a b => declIdx a.1 < declIdx b.1) := by
  simp only [calculate_keyword_matches]
  exact List.Pairwise.sublist (List.filter_sublist _)
    (List.pairwise_map.mpr queryKeywordTypes_pairwise)

lemma mem_type_scores (q : String) (t : QueryType) (s : ℚ) :
    (t, s) ∈ type_scores q ↔ t ∈ queryKeywordTypes ∧ s = score_of q t ∧ 0 < s := by
  unfold type_scores
  rw [List.mem_filter]
  simp only [List.mem_map]
  constructor
  · rintro ⟨⟨e, he, heq⟩, hpos⟩
    obtain ⟨t', m⟩ := e
    injection heq with h1 h2
    subst h1
    obtain ⟨hmem, hm, -⟩ := (mem_ckm q t' m).mp he
    subst hm
    exact ⟨hmem, h2.symm, by simpa using hpos⟩
  · rintro ⟨ht, rfl, hpos⟩
    have htm : typeMatches (pyLower q) t ≠ [] := (score_pos_iff _ t).mp hpos
    exact ⟨⟨(t, typeMatches (pyLower q) t),
      (mem_ckm q t _).mpr ⟨ht, rfl, htm⟩, rfl⟩, by simpa using hpos⟩

lemma ts_pairwise (q : String) :
    (type_scores q).Pairwise (fun a b => declIdx a.1 < declIdx b.1) := by
  unfold type_scores
  exact List.Pairwise.sublist (List.filter_sublist _)
    (List.pairwise_map.mpr (ckm_pairwise q))

lemma ts_nil_iff (q : String) :
    type_scores q = [] ↔ ∀ (t : QueryType) (p : Priority), tierMatches (pyLower q) t p = [] := by
  constructor
  · intro h t p
    by_contra hne
    have htG : t ≠ QueryType.GENERAL := fun hg => hne (by rw [hg, tierMatches_general])
    have htm : typeMatches (pyLower q) t ≠ [] := (typeMatches_ne_nil_iff _ t).mpr ⟨p, hne⟩
    have hpos : 0 < score_of q t := (score_pos_iff _ t).mpr htm
    have hmem : (t, score_of q t) ∈ type_scores q :=
      (mem_type_scores q t _).mpr ⟨(mem_queryKeywordTypes_iff t).mpr htG, rfl, hpos⟩
    rw [h] at hmem
    exact absurd hmem (List.not_mem_nil _)
  · intro hall
    have hckm : calculate_keyword_matches q = [] := by
      simp only [calculate_keyword_matches]
      rw [List.filter_eq_nil_iff]
      intro e he
      rw [List.mem_map] at he
      obtain ⟨t, _, rfl⟩ := he
      have htm : typeMatches (pyLower q) t = [] := by
        by_contra hne
        obtain ⟨p, hp⟩ := (typeMatches_ne_nil_iff _ t).mp hne
        exact hp (hall t p)
      simp [htm]
    unfold type_scores
    rw [hckm]
    rfl

lemma ckm_nil_of_ts_nil (q : String) (h : calculate_keyword_matches q = []) :
    type_scores q = [] := by
  unfold type_scores
  rw [h]
  rfl

/-! ### The stable descending sort -/

lemma sorted_perm (q : String) : (sorted_types q).Perm (type_scores q) :=
  List.perm_insertionSort _ _

lemma sorted_nil_iff (q : String) : sorted_types q = [] ↔ type_scores q = [] := by
  constructor
  · intro h
    have hp := sorted_perm q
    rw [h] at hp
    exact hp.symm.eq_nil
  · intro h
    unfold sorted_types
    rw [h]
    rfl

lemma insertionSort_head_eq (x : QueryType × ℚ) (l₁ l₂ : List (QueryType × ℚ))
    (h₁ : ∀ y ∈ l₁, y.2 < x.2) (h₂ : ∀ y ∈ l₁ ++ x :: l₂, y.2 ≤ x.2) :
    ∃ tl, List.insertionSort (fun a b => b.2 ≤ a.2) (l₁ ++ x :: l₂) = x :: tl := by
  induction l₁ with
  | nil =>
    simp only [List.nil_append, List.insertionSort]
    cases hs : List.insertionSort (fun a b => b.2 ≤ a.2) l₂ with
    | nil => exact ⟨[], rfl⟩
    | cons y ys =>
      have hy : y ∈ l₂ := (List.perm_insertionSort _ l₂).subset (by rw [hs]; exact List.mem_cons_self y ys)
      have hle : y.2 ≤ x.2 := h₂ y (List.mem_cons_of_mem _ hy)
      exact ⟨y :: ys, List.orderedInsert_of_le _ _ hle⟩
  | cons a l₁ ih =>
    obtain ⟨tl, htl⟩ := ih (fun y hy => h₁ y (List.mem_cons_of_mem a hy))
      (fun y hy => h₂ y (List.mem_cons_of_mem a hy))
    have ha : a.2 < x.2 := h₁ a (List.mem_cons_self a l₁)
    refine ⟨List.orderedInsert (fun u v => v.2 ≤ u.2) a tl, ?_⟩
    have hstep : List.insertionSort (fun u v => v.2 ≤ u.2) ((a :: l₁) ++ x :: l₂)
        = List.orderedInsert (fun u v => v.2 ≤ u.2) a
            (List.insertionSort (fun u v => v.2 ≤ u.2) (l₁ ++ x :: l₂)) := rfl
    rw [hstep, htl]
    have hins : List.orderedInsert (fun u v => v.2 ≤ u.2) a (x :: tl)
        = if x.2 ≤ a.2 then a :: x :: tl
          else x :: List.orderedInsert (fun u v => v.2 ≤ u.2) a tl := rfl
    rw [hins, if_neg (not_le.mpr ha)]

/-! ### Unfolding `classify_query` by cases on the sorted candidate list -/

lemma classify_nil (q : String) (h : sorted_types q = []) :
    classify_query q = ⟨QueryType.GENERAL, [], 0, []⟩ := by
  unfold classify_query
  rw [h]

lemma classify_cons (q : String) (top : QueryType × ℚ) (rest : List (QueryType × ℚ))
    (h : sorted_types q = top :: rest) :
    classify_query q = ⟨top.1,
      (rest.filter (fun e => decide ((3 : ℚ)/10 < e.2))).map Prod.fst,
      top.2,
      ((calculate_keyword_matches q).filter (fun e => !e.2.isEmpty)).map
        (fun e => (queryTypeStr e.1, e.2))⟩ := by
  unfold classify_query
  rw [h]

lemma head_mem_ts (q : String) (top : QueryType × ℚ) (rest : List (QueryType × ℚ))
    (h : sorted_types q = top :: rest) : top ∈ type_scores q :=
  (sorted_perm q).subset (by rw [h]; exact List.mem_cons_self top rest)

lemma rest_mem_ts (q : String) (top y : QueryType × ℚ) (rest : List (QueryType × ℚ))
    (h : sorted_types q = top :: rest) (hy : y ∈ rest) : y ∈ type_scores q :=
  (sorted_perm q).subset (by rw [h]; exact List.mem_cons_of_mem top hy)

lemma sorted_keys_nodup (q : String) : ((sorted_types q).map Prod.fst).Nodup := by
  have hperm : ((sorted_types q).map Prod.fst).Perm ((type_scores q).map Prod.fst) :=
    (sorted_perm q).map _
  rw [hperm.nodup_iff]
  have hpw : ((type_scores q).map Prod.fst).Pairwise (fun a b => declIdx a < declIdx b) :=
    List.pairwise_map.mpr (ts_pairwise q)
  exact hpw.imp (fun hlt heq => absurd (heq ▸ hlt) (lt_irrefl _))

lemma mem_secondary (q : String) (top : QueryType × ℚ) (rest : List (QueryType × ℚ))
    (h : sorted_types q = top :: rest) (t : QueryType) :
    t ∈ (classify_query q).secondary_types ↔ ∃ s, (t, s) ∈ rest ∧ (3:ℚ)/10 < s := by
  rw [classify_cons q top rest h]
  simp only [List.mem_map, List.mem_filter]
  constructor
  · rintro ⟨⟨t', s⟩, ⟨hmem, hgt⟩, rfl⟩
    exact ⟨s, hmem, by simpa using hgt⟩
  · rintro ⟨s, hs, hgt⟩
    exact ⟨(t, s), ⟨hs, by simpa⟩, rfl⟩

/-! ### Derived facts about the returned classification -/

lemma conf_values (q : String) :
    (classify_query q).confidence_score ∈ ([0, 3/10, 6/10, 9/10, 1] : List ℚ) := by
  cases hs : sorted_types q with
  | nil => rw [classify_nil q hs]; simp
  | cons top rest =>
    rw [classify_cons q top rest hs]
    obtain ⟨t, s⟩ := top
    obtain ⟨-, hsc, -⟩ := (mem_type_scores q t s).mp (head_mem_ts q _ rest hs)
    show s ∈ _
    rw [hsc]
    exact score_mem_values (pyLower q) t

lemma secondary_mem_info (q : String) (t : QueryType)
    (ht : t ∈ (classify_query q).secondary_types) :
    t ∈ queryKeywordTypes ∧ (3:ℚ)/10 < score_of q t := by
  cases hs : sorted_types q with
  | nil =>
    rw [classify_nil q hs] at ht
    exact absurd ht (List.not_mem_nil _)
  | cons top rest =>
    obtain ⟨s, hmem, hgt⟩ := (mem_secondary q top rest hs t).mp ht
    obtain ⟨hqt, hsc, -⟩ := (mem_type_scores q t s).mp (rest_mem_ts q top (t, s) rest hs hmem)
    exact ⟨hqt, hsc ▸ hgt⟩

lemma mem_keywords_matched (q : String) (top : QueryType × ℚ) (rest : List (QueryType × ℚ))
    (h : sorted_types q = top :: rest) (t : QueryType) (m : List (Priority × List String)) :
    (queryTypeStr t, m) ∈ (classify_query q).keywords_matched
      ↔ (t, m) ∈ calculate_keyword_matches q := by
  rw [classify_cons q top rest h]
  show (queryTypeStr t, m)
      ∈ ((calculate_keyword_matches q).filter (fun e => !e.2.isEmpty)).map
          (fun e => (queryTypeStr e.1, e.2)) ↔ _
  rw [ckm_filter_id]
  simp only [List.mem_map]
  constructor
  · rintro ⟨⟨t', m'⟩, he, heq⟩
    injection heq with h1 h2
    have ht' : t' = t := queryTypeStr_inj t' t h1
    subst ht'
    subst h2
    exact he
  · intro hmem
    exact ⟨(t, m), hmem, rfl⟩

/-! ### Lines of a template and the secondary-context excerpts -/

lemma drop_take_get (l : List String) :
    (l.drop 1).take 3 = l[1]?.toList ++ l[2]?.toList ++ l[3]?.toList := by
  rcases l with _ | ⟨a, _ | ⟨b, _ | ⟨c, _ | ⟨d, rest⟩⟩⟩⟩ <;> simp

lemma secondary_fold_eq (l : List QueryType) (init : List String) :
    l.foldl (fun acc secondary_type =>
      match SPECIALIZED_CONTEXTS secondary_type with
      | some ctx => acc ++ (((splitChar '\n' ctx).drop 1).take 3)
      | none => acc) init
      = init ++ (l.map spec_type_excerpt).flatten := by
  induction l generalizing init with
  | nil => simp
  | cons a l ih =>
    rw [List.foldl_cons]
    cases h : SPECIALIZED_CONTEXTS a with
    | none =>
      simp only [h]
      rw [ih]
      simp [spec_type_excerpt, h]
    | some tpl =>
      simp only [h]
      rw [ih, drop_take_get]
      simp [spec_type_excerpt, h, spec_excerpt, List.append_assoc]

lemma secondary_contexts_eq (c : QueryClassification) :
    secondary_contexts_list c = (c.secondary_types.map spec_type_excerpt).flatten := by
  unfold secondary_contexts_list
  simpa using secondary_fold_eq c.secondary_types []

lemma secondary_contexts_ne_nil (q : String) (h : (classify_query q).secondary_types ≠ []) :
    secondary_contexts_list (classify_query q) ≠ [] := by
  rw [secondary_contexts_eq]
  cases hsec : (classify_query q).secondary_types with
  | nil => exact absurd hsec h
  | cons t ts =>
    have ht : t ∈ (classify_query q).secondary_types := by
      rw [hsec]; exact List.mem_cons_self t ts
    have hqt : t ∈ queryKeywordTypes := (secondary_mem_info q t ht).1
    have hne := spec_type_excerpt_ne_nil t hqt
    simp only [List.map_cons, List.flatten_cons]
    intro hnil
    rw [List.append_eq_nil] at hnil
    exact hne hnil.1

/-! ### The claims -/

/-- C2: on any query for which two or more candidate types share the maximum
per-type score, `classify` returns as primary type the one that comes first
in the declaration order of `QueryType` (the keyword dict iterates in
declaration order and Python's sort is stable, so the first-inserted maximum
wins). -/
theorem claim2_tie_break_declaration_order (q : String) (t : QueryType) (s : ℚ)
    (hmem : (t, s) ∈ type_scores q)
    (hmax : ∀ p ∈ type_scores q, p.2 ≤ s)
    (hfirst : ∀ p ∈ type_scores q, p.2 = s → declIdx t ≤ declIdx p.1)
    (_hshare : 2 ≤ ((type_scores q).filter (fun p => decide (p.2 = s))).length) :
    (classify_query q).primary_type = t := by
  obtain ⟨l₁, l₂, hsplit⟩ := List.append_of_mem hmem
  have hpw := ts_pairwise q
  rw [hsplit, List.pairwise_append] at hpw
  obtain ⟨-, -, hcross⟩ := hpw
  have h₁ : ∀ y ∈ l₁, y.2 < (t, s).2 := by
    intro y hy
    have hyts : y ∈ type_scores q := by rw [hsplit]; exact List.mem_append_left _ hy
    rcases lt_or_eq_of_le (hmax y hyts) with hlt | heq
    · exact hlt
    · exfalso
      have hd : declIdx t ≤ declIdx y.1 := hfirst y hyts heq
      have hd2 : declIdx y.1 < declIdx (t, s).1 :=
        hcross y hy (t, s) (List.mem_cons_self _ _)
      exact absurd hd (not_le.mpr hd2)
  have h₂ : ∀ y ∈ l₁ ++ (t, s) :: l₂, y.2 ≤ (t, s).2 := fun y hy =>
    hmax y (by rw [hsplit]; exact hy)
  obtain ⟨tl, htl⟩ := insertionSort_head_eq (t, s) l₁ l₂ h₁ h₂
  have hsorted : sorted_types q = (t, s) :: tl := by
    unfold sorted_types
    rw [hsplit]
    exact htl
  rw [classify_cons q (t, s) tl hsorted]

/-- C4: for every query and every type, the per-type score equals
`min(1.0, Σ_tier weight(tier) × distinct-keywords-matched-in-tier)` with
weights `high=1.0, medium=0.6, low=0.3` (the spec-side `spec_score`), the
scores stored in `type_scores` agree with it, and the returned confidence
always lies in `[0, 1]`. -/
theorem claim4_score_formula (q : String) (t : QueryType) :
    score_of q t = spec_score q t
    ∧ (∀ s, (t, s) ∈ type_scores q → s = spec_score q t)
    ∧ 0 ≤ (classify_query q).confidence_score
    ∧ (classify_query q).confidence_score ≤ 1 := by
  have hmain : score_of q t = spec_score q t := by
    unfold score_of spec_score distinct_matched
    rw [List.dedup_eq_self.mpr (table_nodup t Priority.high_priority),
      List.dedup_eq_self.mpr (table_nodup t Priority.medium_priority),
      List.dedup_eq_self.mpr (table_nodup t Priority.low_priority),
      calc_score_formula, min_comm, one_mul]
    unfold tierMatches
    rfl
  refine ⟨hmain, ?_, ?_, ?_⟩
  · intro s hs
    obtain ⟨-, hsc, -⟩ := (mem_type_scores q t s).mp hs
    rw [hsc, hmain]
  · cases hs : sorted_types q with
    | nil =>
      rw [classify_nil q hs]
    | cons top rest =>
      rw [classify_cons q top rest hs]
      obtain ⟨t', s⟩ := top
      obtain ⟨-, hsc, -⟩ := (mem_type_scores q t' s).mp (head_mem_ts q _ rest hs)
      show (0:ℚ) ≤ s
      rw [hsc]
      exact score_nonneg (pyLower q) t'
  · cases hs : sorted_types q with
    | nil =>
      rw [classify_nil q hs]
      exact zero_le_one
    | cons top rest =>
      rw [classify_cons q top rest hs]
      obtain ⟨t', s⟩ := top
      obtain ⟨-, hsc, -⟩ := (mem_type_scores q t' s).mp (head_mem_ts q _ rest hs)
      show s ≤ (1:ℚ)
      rw [hsc]
      exact score_le_one (pyLower q) t'

/-- C5: when no keyword phrase of any type occurs as a substring of the
lowercased query (the empty query included), `classify` returns exactly the
`GENERAL` fallback classification. -/
theorem claim5_no_match_fallback (q : String)
    (h : ∀ (t : QueryType) (p : Priority), ∀ k ∈ QUERY_KEYWORDS t p,
      strIn k (pyLower q) = false) :
    classify_query q = ⟨QueryType.GENERAL, [], 0, []⟩ := by
  have htier : ∀ (t : QueryType) (p : Priority), tierMatches (pyLower q) t p = [] := by
    intro t p
    unfold tierMatches
    rw [List.filter_eq_nil_iff]
    intro k hk
    simp [h t p k hk]
  exact classify_nil q ((sorted_nil_iff q).mpr ((ts_nil_iff q).mpr htier))

/-- C6: the primary type is never a member of `secondary_types`, and every
secondary type has a per-type score strictly greater than `0.3`. -/
theorem claim6_secondary_invariants (q : String) :
    (classify_query q).primary_type ∉ (classify_query q).secondary_types
    ∧ ∀ t ∈ (classify_query q).secondary_types, (3:ℚ)/10 < score_of q t := by
  constructor
  · cases hs : sorted_types q with
    | nil =>
      rw [classify_nil q hs]
      exact List.not_mem_nil _
    | cons top rest =>
      intro hmem
      have hnodup := sorted_keys_nodup q
      rw [hs, List.map_cons] at hnodup
      have hnot : top.1 ∉ rest.map Prod.fst := (List.nodup_cons.mp hnodup).1
      have hprim : (classify_query q).primary_type = top.1 := by
        rw [classify_cons q top rest hs]
      have hsec2 : (classify_query q).secondary_types
          = (rest.filter (fun e => decide ((3:ℚ)/10 < e.2))).map Prod.fst := by
        rw [classify_cons q top rest hs]
      rw [hprim, hsec2] at hmem
      apply hnot
      obtain ⟨e, he, heq⟩ := List.mem_map.mp hmem
      exact heq ▸ List.mem_map_of_mem _ (List.mem_of_mem_filter he)
  · intro t ht
    exact (secondary_mem_info q t ht).2

/-- C7: classification is case-insensitive — two queries with the same
lowercasing classify identically (the query is lowercased before the
substring comparisons, and the keyword table is already lowercase). -/
theorem claim7_case_insensitive (q q' : String) (h : pyLower q = pyLower q') :
    classify_query q = classify_query q'
    ∧ ∀ (t : QueryType) (p : Priority), ∀ k ∈ QUERY_KEYWORDS t p, pyLower k = k := by
  refine ⟨?_, table_lowercase⟩
  have hckm : calculate_keyword_matches q = calculate_keyword_matches q' := by
    simp only [calculate_keyword_matches, h]
  have hts : type_scores q = type_scores q' := by
    unfold type_scores
    rw [hckm]
  have hst : sorted_types q = sorted_types q' := by
    unfold sorted_types
    rw [hts]
  unfold classify_query
  rw [hst, hckm]

/-- C9: `classify` and `compose` are pure functions of their input — the
embedding is deterministic by construction, mirroring the source, which
reads only its class-level constant tables and no clock, randomness or
mutable state. -/
theorem claim9_pure_deterministic (q₁ q₂ : String) (h : q₁ = q₂) :
    classify_query q₁ = classify_query q₂ ∧ generate_prompt q₁ = generate_prompt q₂ := by
  subst h
  exact ⟨rfl, rfl⟩

/-- C10: the primary type is `GENERAL` exactly when no keyword matched,
exactly when `keywords_matched` is empty, exactly when the confidence is 0;
and `GENERAL` never appears among the secondary types. -/
theorem claim10_general_iff_no_evidence (q : String) :
    ((classify_query q).primary_type = QueryType.GENERAL
        ↔ ∀ (t : QueryType) (p : Priority), tierMatches (pyLower q) t p = [])
    ∧ ((classify_query q).primary_type = QueryType.GENERAL
        ↔ (classify_query q).keywords_matched = [])
    ∧ ((classify_query q).primary_type = QueryType.GENERAL
        ↔ (classify_query q).confidence_score = 0)
    ∧ QueryType.GENERAL ∉ (classify_query q).secondary_types := by
  cases hs : sorted_types q with
  | nil =>
    have hall := (ts_nil_iff q).mp ((sorted_nil_iff q).mp hs)
    rw [classify_nil q hs]
    exact ⟨iff_of_true rfl hall, iff_of_true rfl rfl, iff_of_true rfl rfl, List.not_mem_nil _⟩
  | cons top rest =>
    have htop := head_mem_ts q top rest hs
    obtain ⟨t', s⟩ := top
    obtain ⟨hqt, hsc, hpos⟩ := (mem_type_scores q t' s).mp htop
    have hne : t' ≠ QueryType.GENERAL := (mem_queryKeywordTypes_iff t').mp hqt
    rw [classify_cons q _ rest hs]
    refine ⟨?_, ?_, ?_, ?_⟩
    · refine iff_of_false (by simpa using hne) ?_
      intro hall
      have h2 : sorted_types q = [] := (sorted_nil_iff q).mpr ((ts_nil_iff q).mpr hall)
      rw [hs] at h2
      exact absurd h2 (by simp)
    · refine iff_of_false (by simpa using hne) ?_
      show ¬ ((calculate_keyword_matches q).filter (fun e => !e.2.isEmpty)).map
        (fun e => (queryTypeStr e.1, e.2)) = []
      rw [ckm_filter_id]
      intro hmapnil
      have hckmnil : calculate_keyword_matches q = [] := by
        cases hckm : calculate_keyword_matches q with
        | nil => rfl
        | cons e es =>
          rw [hckm] at hmapnil
          simp at hmapnil
      have h2 : sorted_types q = [] := (sorted_nil_iff q).mpr (ckm_nil_of_ts_nil q hckmnil)
      rw [hs] at h2
      exact absurd h2 (by simp)
    · exact iff_of_false (by simpa using hne) hpos.ne'
    · intro hmem
      obtain ⟨e, he, heq⟩ := List.mem_map.mp hmem
      have hrest : e ∈ rest := List.mem_of_mem_filter he
      obtain ⟨t2, s2⟩ := e
      obtain ⟨hqt2, -, -⟩ := (mem_type_scores q t2 s2).mp (rest_mem_ts q _ _ rest hs hrest)
      rw [mem_queryKeywordTypes_iff] at hqt2
      exact hqt2 heq

/-- C3: `keywords_matched` has an entry (keyed by the `str()` rendering of
the type, which is injective, so the keying is equivalent to keying by
`QueryType`) exactly for the types with at least one matched keyword —
including types that end up neither primary nor secondary — and each entry
holds exactly the per-tier matched keyword lists. -/
theorem claim3_keywords_matched_complete (q : String) (t : QueryType) :
    ((∃ p, tierMatches (pyLower q) t p ≠ [])
        ↔ ∃ m, (queryTypeStr t, m) ∈ (classify_query q).keywords_matched)
    ∧ (∀ m, (queryTypeStr t, m) ∈ (classify_query q).keywords_matched →
        ∀ p, ((p, tierMatches (pyLower q) t p) ∈ m ↔ tierMatches (pyLower q) t p ≠ []))
    ∧ (∀ a b : QueryType, queryTypeStr a = queryTypeStr b → a = b) := by
  cases hs : sorted_types q with
  | nil =>
    have hall := (ts_nil_iff q).mp ((sorted_nil_iff q).mp hs)
    rw [classify_nil q hs]
    refine ⟨?_, ?_, queryTypeStr_inj⟩
    · constructor
      · rintro ⟨p, hp⟩
        exact absurd (hall t p) hp
      · rintro ⟨m, hm⟩
        exact absurd hm (List.not_mem_nil _)
    · rintro m hm
      exact absurd hm (List.not_mem_nil _)
  | cons top rest =>
    refine ⟨?_, ?_, queryTypeStr_inj⟩
    · constructor
      · rintro ⟨p, hp⟩
        have hnetm : typeMatches (pyLower q) t ≠ [] := (typeMatches_ne_nil_iff _ t).mpr ⟨p, hp⟩
        have htG : t ≠ QueryType.GENERAL := by
          intro hg
          rw [hg, tierMatches_general] at hp
          exact hp rfl
        refine ⟨typeMatches (pyLower q) t, ?_⟩
        rw [mem_keywords_matched q top rest hs]
        exact (mem_ckm q t _).mpr ⟨(mem_queryKeywordTypes_iff t).mpr htG, rfl, hnetm⟩
      · rintro ⟨m, hm⟩
        rw [mem_keywords_matched q top rest hs] at hm
        obtain ⟨-, hmm, hnem⟩ := (mem_ckm q t m).mp hm
        subst hmm
        exact (typeMatches_ne_nil_iff _ t).mp hnem
    · intro m hm p
      rw [mem_keywords_matched q top rest hs] at hm
      obtain ⟨-, hmm, -⟩ := (mem_ckm q t m).mp hm
      subst hmm
      constructor
      · intro hmem
        exact ((mem_typeMatches _ t p _).mp hmem).2
      · intro hnet
        exact (mem_typeMatches _ t p _).mpr ⟨rfl, hnet⟩

/-- C8: the composed prompt contains the original query verbatim, and
contains the confidence score rendered by the `:.2f` format — an integer
part followed by a dot and exactly two decimal digits. -/
theorem claim8_compose_verbatim (q : String) :
    ContainsStr (generate_prompt q) ("User Query: " ++ q)
    ∧ ContainsStr (generate_prompt q)
        ("Query Classification Confidence: "
          ++ format2f (classify_query q).confidence_score)
    ∧ ∃ intPart d₁ d₂,
        format2f (classify_query q).confidence_score
            = intPart ++ "." ++ String.mk [d₁, d₂]
          ∧ (∀ c ∈ intPart.data, c.isDigit) ∧ d₁.isDigit ∧ d₂.isDigit := by
  refine ⟨?_, ?_, ?_⟩
  · simp only [generate_prompt]
    apply containsStr_appR
    apply containsStr_appR
    apply containsStr_appR
    apply containsStr_appR
    apply containsStr_appR
    exact containsStr_self_right _ _
  · simp only [generate_prompt]
    apply containsStr_appR
    apply containsStr_appR
    apply containsStr_appR
    apply containsStr_appR
    apply containsStr_appR
    apply containsStr_appR
    apply containsStr_appR
    exact containsStr_self_right _ _
  · have hv := conf_values q
    simp only [List.mem_cons, List.not_mem_nil, or_false] at hv
    rcases hv with h | h | h | h | h <;> rw [h]
    · exact ⟨"0", '0', '0', by decide, by decide, by decide, by decide⟩
    · exact ⟨"0", '3', '0', by decide, by decide, by decide, by decide⟩
    · exact ⟨"0", '6', '0', by decide, by decide, by decide, by decide⟩
    · exact ⟨"0", '9', '0', by decide, by decide, by decide, by decide⟩
    · exact ⟨"1", '0', '0', by decide, by decide, by decide, by decide⟩

/-- C1 (amended): for every classification with non-empty secondary types,
the composed prompt's "Additional Considerations" section consists, per
secondary type with a defined template, of exactly the 2nd through 4th lines
of that type's template text (whatever is available when fewer exist); since
every template begins with a blank line, the excerpt starts with the
template's leading header line (`For ...-related queries:`) — the header is
included, not skipped. -/
theorem claim1_secondary_excerpt_lines (q : String)
    (h : (classify_query q).secondary_types ≠ []) :
    secondary_contexts_list (classify_query q)
        = ((classify_query q).secondary_types.map spec_type_excerpt).flatten
    ∧ ContainsStr (generate_prompt q)
        ("Additional Considerations:" ++ "\n        "
          ++ joinSep "\n" (secondary_contexts_list (classify_query q)))
    ∧ ∀ t ∈ (classify_query q).secondary_types,
        (splitChar '\n' ((SPECIALIZED_CONTEXTS t).getD ""))[0]? = some ""
        ∧ charsPrefix "        For ".data
            (((splitChar '\n' ((SPECIALIZED_CONTEXTS t).getD ""))[1]?.getD "").data)
          = true := by
  refine ⟨secondary_contexts_eq _, ?_, ?_⟩
  · have hne := secondary_contexts_ne_nil q h
    have hemp : (secondary_contexts_list (classify_query q)).isEmpty = false :=
      List.isEmpty_eq_false.mpr hne
    simp only [generate_prompt, hemp, Bool.false_eq_true, if_false]
    apply containsStr_appR
    apply containsStr_appR
    apply containsStr_appR
    apply containsStr_appR
    apply containsStr_appR
    apply containsStr_appR
    apply containsStr_appR
    apply containsStr_appR
    apply containsStr_appR
    exact containsStr_self_right _ _
  · intro t ht
    exact template_header t (secondary_mem_info q t ht).1

/-- C1 counterexample: on the query `"security performance"`, `PERFORMANCE`
is a secondary type with a defined template; the template's 1st line is
blank and its 2nd line *is* its leading header line
(`"        For performance-related queries:"` — also its first non-blank
line), and that header line is included in the composed secondary excerpt.
So the excerpt does not skip the template's leading header line, refuting
the claim as stated. -/
theorem claim1_counterexample :
    (SPECIALIZED_CONTEXTS QueryType.PERFORMANCE).isSome = true
    ∧ (splitChar '\n' ((SPECIALIZED_CONTEXTS QueryType.PERFORMANCE).getD ""))[0]? = some ""
    ∧ (splitChar '\n' ((SPECIALIZED_CONTEXTS QueryType.PERFORMANCE).getD ""))[1]?
        = some "        For performance-related queries:"
    ∧ ((splitChar '\n' ((SPECIALIZED_CONTEXTS QueryType.PERFORMANCE).getD "")).filter
        (fun l => !(l == ""))).head? = some "        For performance-related queries:"
    ∧ QueryType.PERFORMANCE ∈ (classify_query "security performance").secondary_types
    ∧ "        For performance-related queries:"
        ∈ secondary_contexts_list (classify_query "security performance") := by
  refine ⟨by decide, by decide, by decide, by decide, by decide, by decide⟩

/-! ### Witnesses: the claim theorems applied at concrete inputs -/

/-- Witness for C1 at `"security performance"` (secondary types non-empty). -/
theorem claim1_witness :
    secondary_contexts_list (classify_query "security performance")
      = ((classify_query "security performance").secondary_types.map spec_type_excerpt).flatten :=
  (claim1_secondary_excerpt_lines "security performance" (by decide)).1

/-- Witness for C2: on `"security performance"`, SECURITY and PERFORMANCE
tie at the maximum score 1 and SECURITY, earlier in declaration order, wins. -/
theorem claim2_witness :
    (classify_query "security performance").primary_type = QueryType.SECURITY :=
  claim2_tie_break_declaration_order "security performance" QueryType.SECURITY 1
    (by decide) (by decide) (by decide) (by decide)

/-- Witness for C3: on `"security performance"`, PROCEDURE matches the
low-priority keyword `"perform"`, is neither primary nor secondary, and
still owns an entry in `keywords_matched`. -/
theorem claim3_witness :
    (∃ m, (queryTypeStr QueryType.PROCEDURE, m)
        ∈ (classify_query "security performance").keywords_matched)
    ∧ (classify_query "security performance").primary_type ≠ QueryType.PROCEDURE
    ∧ QueryType.PROCEDURE ∉ (classify_query "security performance").secondary_types :=
  ⟨(claim3_keywords_matched_complete "security performance" QueryType.PROCEDURE).1.mp
      ⟨Priority.low_priority, by decide⟩,
    by decide, by decide⟩

/-- Witness for C4: the score stored for SECURITY on
`"security performance"` is the spec formula's value. -/
theorem claim4_witness :
    (1 : ℚ) = spec_score "security performance" QueryType.SECURITY
    ∧ 0 ≤ (classify_query "security performance").confidence_score :=
  ⟨(claim4_score_formula "security performance" QueryType.SECURITY).2.1 1 (by decide),
    (claim4_score_formula "security performance" QueryType.SECURITY).2.2.1⟩

/-- Witness for C5 at `"hello"` and at the empty string (no keyword occurs
in either). -/
theorem claim5_witness :
    classify_query "hello" = ⟨QueryType.GENERAL, [], 0, []⟩
    ∧ classify_query "" = ⟨QueryType.GENERAL, [], 0, []⟩ :=
  ⟨claim5_no_match_fallback "hello" (by decide), claim5_no_match_fallback "" (by decide)⟩

/-- Witness for C6 at `"security performance"`: PERFORMANCE is secondary and
its score strictly exceeds 0.3. -/
theorem claim6_witness :
    (classify_query "security performance").primary_type
        ∉ (classify_query "security performance").secondary_types
    ∧ (3:ℚ)/10 < score_of "security performance" QueryType.PERFORMANCE :=
  ⟨(claim6_secondary_invariants "security performance").1,
    (claim6_secondary_invariants "security performance").2 QueryType.PERFORMANCE (by decide)⟩

/-- Witness for C7: the spec's own example pair of case-variant queries. -/
theorem claim7_witness :
    classify_query "SECURITY KEY MANAGEMENT" = classify_query "security key management" :=
  (claim7_case_insensitive "SECURITY KEY MANAGEMENT" "security key management" (by decide)).1

/-- Witness for C9 at `"hello"`. -/
theorem claim9_witness :
    classify_query "hello" = classify_query "hello"
    ∧ generate_prompt "hello" = generate_prompt "hello" :=
  claim9_pure_deterministic "hello" "hello" rfl

end Lemmas

end Telecom
